import Mathlib

/-!
Verification of the Arknights Endfield check-in core (`EndfieldAdapter` in
`src/games/endfield_adapter.py` and `Game.sign` in `src/games/game.py`).

The adapter's remote calls are modelled by an environment record `Env` that
holds, for each endpoint, the transport result of the call: `Except.error e`
models a network failure or a non-JSON body (the Python code catches the
exception), and `Except.ok d` holds the decoded JSON payload.  JSON payloads
are flattened into typed records: nested `data` objects become fields of the
response record, `dict.get` of a possibly missing key becomes an `Option`,
and the `.get(key, default)` defaults are applied at the use sites exactly as
in the Python code.  Python truthiness of a string (`if code:`) is modelled
by `strTruthy` (present and nonempty), and of a list / dict by `≠ []`.

The cryptographic primitives (`hmac`/`hashlib` from the Python standard
library, not code of this repository) are abstracted as function parameters
of `compute_sign`; the serialization of the header object performed by
`json.dumps(..., separators=(',', ':'))` is modelled concretely by
`jsonObj`.
-/

namespace Endfield

/-- A reward entry of a `resourceInfoMap` catalog: the fields the adapter
reads via `resource.get("name", ...)`, `resource.get("count", ...)`,
`resource.get("icon", ...)`; each is `Option` because the key may be
missing. -/
structure Resource where
  name : Option String
  count : Option Int
  icon : Option String
deriving DecidableEq, Repr

/-- A resolved reward as the adapter builds it (defaults already applied):
`{"name": ..., "count": ..., "icon": ...}`. -/
structure Reward where
  name : String
  count : Int
  icon : String
deriving DecidableEq, Repr

/-- One calendar day-record of the attendance check response:
`record.get("done", False)` and `record.get("awardId")`. -/
structure CalEntry where
  done : Bool
  awardId : Option String
deriving DecidableEq, Repr

/-- Decoded payload of the attendance check (GET) call, flattened:
top-level `code` and `message`, and the `data` fields `hasToday`
(default `False`), `calendar` (default `[]`) and `resourceInfoMap`
(default `{}`, modelled as an association list). -/
structure CheckResp where
  code : Option Int
  message : Option String
  hasToday : Bool
  calendar : List CalEntry
  resourceInfoMap : List (String × Resource)
deriving DecidableEq, Repr

/-- An element of the claim response's `awardIds` list: the Python code
accepts both a plain id string and an object, reading `award.get("id")`
in the latter case (`isinstance(award, dict)`). -/
inductive Award where
  | idStr (s : String)
  | idObj (id : Option String)
deriving DecidableEq, Repr

/-- Decoded payload of the attendance claim (POST) call, flattened:
top-level `code` and `message`, and the `data` fields `awardIds`
(default `[]`) and `resourceInfoMap` (default `{}`). -/
structure ClaimResp where
  code : Option Int
  message : Option String
  awardIds : List Award
  resourceInfoMap : List (String × Resource)
deriving DecidableEq, Repr

/-- Decoded payload of the OAuth grant call: `status` and the nested
`data.code`. -/
structure OAuthResp where
  status : Option Int
  code : Option String
deriving DecidableEq, Repr

/-- Decoded payload of the code-to-credential exchange: `code` and the
nested `data.cred`. -/
structure CredResp where
  code : Option Int
  cred : Option String
deriving DecidableEq, Repr

/-- Decoded payload of the token-refresh call: `code` and the nested
`data.token`. -/
structure RefreshResp where
  code : Option Int
  token : Option String
deriving DecidableEq, Repr

/-- A role inside a player binding: `role.get("roleId")` /
`role.get("serverId")` as rendered into the game-role string. -/
structure Role where
  roleId : String
  serverId : String
deriving DecidableEq, Repr

/-- One binding of a player-binding app entry: `defaultRole` (`none`
models a missing or empty, hence falsy, value) and the `roles` list. -/
structure Binding where
  defaultRole : Option Role
  roles : List Role
deriving DecidableEq, Repr

/-- One app entry of the player-binding response list: `appCode` and
`bindingList`. -/
structure AppBinding where
  appCode : Option String
  bindingList : List Binding
deriving DecidableEq, Repr

/-- Decoded payload of the player-binding lookup: `code` and the nested
`data.list`. -/
structure BindingResp where
  code : Option Int
  list : List AppBinding
deriving DecidableEq, Repr

/-- The credential state the adapter accumulates across `authenticate`:
`self.cred`, `self.sign_token`, `self.game_role`. -/
structure AuthState where
  cred : String
  sign_token : String
  game_role : Option String
deriving DecidableEq, Repr

/-- The normalized check-in outcome dict returned by `perform_checkin`
(and passed through by `Game.sign`): `success`, `message`,
`already_signed`, `reward`, `total_sign_day`. -/
structure Outcome where
  success : Bool
  message : String
  already_signed : Bool
  reward : Option Reward
  total_sign_day : Int
deriving DecidableEq, Repr

/-- The environment of one invocation: the transport result of each remote
call the adapter may issue.  `Except.error e` models a thrown
request/decoding exception with message `e`. -/
structure Env where
  oauthResp : Except String OAuthResp
  credResp : Except String CredResp
  refreshResp : Except String RefreshResp
  bindingResp : Except String BindingResp
  checkResp : Except String CheckResp
  claimResp : Except String ClaimResp

/-- Python truthiness of an optional string: present and nonempty. -/
def strTruthy : Option String → Bool
  | some s => decide (s ≠ "")
  | none => false

/-- First-match lookup in an association list, modelling
`key in d` / `d[key]` on a Python dict. -/
def lookupRes : List (String × Resource) → String → Option Resource
  | [], _ => none
  | (k, v) :: rest, a => if k = a then some v else lookupRes rest a

/-- Whether the first list is a prefix of the second, character by
character (the character-level reading of Python `str.startswith`). -/
def startsWithL : List Char → List Char → Bool
  | [], _ => true
  | _ :: _, [] => false
  | n :: ns, h :: hs => n == h && startsWithL ns hs

/-- Whether the needle occurs as a contiguous run of the haystack
(Python `needle in hay` on strings; an empty needle always occurs). -/
def containsSub (needle hay : List Char) : Bool :=
  startsWithL needle hay ||
    match hay with
    | [] => false
    | _ :: hs => containsSub needle hs

/-- The `"already" in msg.lower()` test of `perform_checkin`; the
lowering is ASCII case folding, which covers the fixed ASCII needle
exactly as Python `str.lower` does. -/
def containsAlready (msg : String) : Bool :=
  containsSub "already".data (msg.data.map Char.toLower)

/-- Rendering of the claim status code into the f-string
`f"API Error (code {code}): {msg}"`: a missing code renders as `None`. -/
def codeRepr : Option Int → String
  | some n => toString n
  | none => "None"

/-- `PLATFORM` constant of the adapter. -/
def PLATFORM : String := "3"

/-- `VNAME` constant of the adapter. -/
def VNAME : String := "1.0.0"

/-- `APP_CODE` constant of the adapter. -/
def APP_CODE : String := "6eb76d4e13aa36e6"

/-- `ENDFIELD_GAME_ID` constant of the adapter. -/
def ENDFIELD_GAME_ID : String := "3"

/-- One lowercase hexadecimal digit. -/
def hexDigit (n : Nat) : Char :=
  if n < 10 then Char.ofNat (48 + n) else Char.ofNat (87 + n)

/-- Four lowercase hexadecimal digits, as produced inside a JSON
`\uXXXX` escape. -/
def hex4 (n : Nat) : String :=
  String.mk [hexDigit (n / 4096 % 16), hexDigit (n / 256 % 16),
             hexDigit (n / 16 % 16), hexDigit (n % 16)]

/-- Escape of one character in a JSON string, modelling CPython
`json.dumps` with its default `ensure_ascii=True`: quote and backslash
get a backslash escape, the five short control escapes are used, other
characters outside the printable ASCII range `0x20`–`0x7e` become
`\uXXXX` escapes (a surrogate pair beyond the BMP). -/
def jsonEscapeChar (c : Char) : String :=
  if c = '"' then "\\\""
  else if c = '\\' then "\\\\"
  else if c = '\n' then "\\n"
  else if c = '\r' then "\\r"
  else if c = '\t' then "\\t"
  else if c.toNat = 8 then "\\b"
  else if c.toNat = 12 then "\\f"
  else if c.toNat < 32 then "\\u" ++ hex4 c.toNat
  else if c.toNat < 127 then String.singleton c
  else if c.toNat ≤ 65535 then "\\u" ++ hex4 c.toNat
  else
    "\\u" ++ hex4 (55296 + (c.toNat - 65536) / 1024) ++
    "\\u" ++ hex4 (56320 + (c.toNat - 65536) % 1024)

/-- JSON escape of a character list. -/
def escList : List Char → String
  | [] => ""
  | c :: cs => jsonEscapeChar c ++ escList cs

/-- A character that `json.dumps` emits verbatim: printable ASCII other
than quote and backslash. -/
def plainAscii (c : Char) : Bool :=
  decide (31 < c.toNat) && decide (c.toNat < 127) && !(c == '"') && !(c == '\\')

/-- A JSON string literal: quoted, contents escaped. -/
def jsonString (s : String) : String :=
  "\"" ++ escList s.data ++ "\""

/-- The comma-joined `"key":"value"` fields of a serialized JSON object,
in insertion order, with the `(',', ':')` separators of the adapter's
`json.dumps` call. -/
def jsonFields : List (String × String) → String
  | [] => ""
  | [kv] => jsonString kv.1 ++ ":" ++ jsonString kv.2
  | kv :: rest => jsonString kv.1 ++ ":" ++ jsonString kv.2 ++ "," ++ jsonFields rest

/-- Serialization of a JSON object from an insertion-ordered list of
string-valued fields, with `separators=(',', ':')` — no inserted
whitespace, fixed key order. -/
def jsonObj (kvs : List (String × String)) : String :=
  "\x7b" ++ jsonFields kvs ++ "\x7d"

/-- `EndfieldAdapter._compute_sign`: build the canonical header object
`{"platform": PLATFORM, "timestamp": timestamp, "dId": "", "vName": VNAME}`,
serialize it with no whitespace, concatenate
`path + body + timestamp + headers_json`, HMAC-SHA256 it keyed by the sign
token, and take the MD5 of the hex digest.  The two hash primitives come
from the Python standard library (`hmac.new(...).hexdigest()` and
`hashlib.md5(...).hexdigest()`), not from this repository, so they are
abstracted as parameters: `hmacSha256Hex key msg` is the lowercase hex
HMAC-SHA256 digest and `md5Hex s` the lowercase hex MD5 digest. -/
def compute_sign (hmacSha256Hex : String → String → String)
    (md5Hex : String → String)
    (sign_token path body timestamp : String) : String :=
  let headers_json := jsonObj
    [("platform", PLATFORM), ("timestamp", timestamp), ("dId", ""), ("vName", VNAME)]
  let sign_string := path ++ body ++ timestamp ++ headers_json
  md5Hex (hmacSha256Hex sign_token sign_string)

/-- The short-form classification of a raw token
(line 52 of `endfield_adapter.py`): it does not start with `"eyJ"`
and is shorter than 100 characters. -/
def isShortToken (tok : String) : Bool :=
  !(startsWithL "eyJ".data tok.data) && decide (tok.length < 100)

/-- The `__init__` short-token branch: `self.cred` is set to the raw token
exactly when the token is classified short-form. -/
def initCred (tok : String) : Option String :=
  if isShortToken tok then some tok else none

/-- Whether `authenticate` issues the OAuth grant call: the
`if not self.cred:` guard — OAuth runs exactly when the cred set by
`__init__` is falsy (absent or empty). -/
def oauth_invoked (tok : String) : Bool :=
  !(strTruthy (initCred tok))

/-- `EndfieldAdapter._get_oauth_code`: the OAuth code when the call
succeeded with `status == 0` and a truthy nested code, else `None`. -/
def getOauthCode : Except String OAuthResp → Option String
  | .error _ => none
  | .ok d => if d.status = some 0 ∧ strTruthy d.code then d.code else none

/-- `EndfieldAdapter._get_cred`: the session credential when the exchange
succeeded with `code == 0` and a truthy nested cred, else `None`. -/
def getCred : Except String CredResp → Option String
  | .error _ => none
  | .ok d => if d.code = some 0 ∧ strTruthy d.cred then d.cred else none

/-- `EndfieldAdapter._get_sign_token`: the signing token when the refresh
succeeded with `code == 0` and a truthy nested token, else `None`. -/
def getSignToken : Except String RefreshResp → Option String
  | .error _ => none
  | .ok d => if d.code = some 0 ∧ strTruthy d.token then d.token else none

/-- The role selected from one binding:
`binding.get("defaultRole") or (binding.get("roles", [{}])[0] if binding.get("roles") else None)`. -/
def roleOf (b : Binding) : Option Role :=
  match b.defaultRole with
  | some r => some r
  | none => b.roles.head?

/-- The loop of `_get_player_binding` over the app list: the first app
with `appCode == "endfield"` and a nonempty `bindingList` whose first
binding yields a truthy role produces the game-role string; otherwise the
loop continues. -/
def findRole : List AppBinding → Option String
  | [] => none
  | app :: rest =>
    if app.appCode = some "endfield" ∧ app.bindingList ≠ [] then
      match app.bindingList.head? with
      | some binding =>
        match roleOf binding with
        | some r => some (ENDFIELD_GAME_ID ++ "_" ++ r.roleId ++ "_" ++ r.serverId)
        | none => findRole rest
      | none => findRole rest
    else findRole rest

/-- `EndfieldAdapter._get_player_binding`: on a successful call with
`code == 0` and a truthy list, scan the apps for an Endfield binding;
any failure, including a thrown exception, yields `None`. -/
def getPlayerBinding : Except String BindingResp → Option String
  | .error _ => none
  | .ok d => if d.code = some 0 ∧ d.list ≠ [] then findRole d.list else none

/-- The credential stage of `authenticate`: use the cred set by
`__init__` when truthy, otherwise run the OAuth grant and, if it yields a
code, the code-to-credential exchange. -/
def credStage (env : Env) (tok : String) : Option String :=
  if strTruthy (initCred tok) then initCred tok
  else
    match getOauthCode env.oauthResp with
    | none => none
    | some _ => getCred env.credResp

/-- `EndfieldAdapter.authenticate`: credential stage, then the mandatory
sign-token refresh, then the best-effort player-binding lookup whose
failure leaves `game_role` unset without failing the chain.  `none`
models `authenticate` returning `False`. -/
def authenticate (env : Env) (tok : String) : Option AuthState :=
  match credStage env tok with
  | none => none
  | some cred =>
    match getSignToken env.refreshResp with
    | none => none
    | some t => some ⟨cred, t, getPlayerBinding env.bindingResp⟩

/-- `EndfieldAdapter.check_attendance`: the decoded payload, or the
synthetic payload `{"code": -1, "message": str(e)}` when the request or
JSON decoding raised. -/
def check_attendance : Except String CheckResp → CheckResp
  | .ok d => d
  | .error e => ⟨some (-1), some e, false, [], []⟩

/-- `EndfieldAdapter.claim_attendance`: the decoded payload, or the
synthetic payload `{"code": -1, "message": str(e)}` when the request or
JSON decoding raised. -/
def claim_attendance : Except String ClaimResp → ClaimResp
  | .ok d => d
  | .error e => ⟨some (-1), some e, [], []⟩

/-- Headers of the attendance check request (GET): cred, platform, vname,
timestamp, language, signature, plus the role header only when a game
role was resolved. -/
def check_headers (st : AuthState) (timestamp signature : String) :
    List (String × String) :=
  [("cred", st.cred), ("platform", PLATFORM), ("vname", VNAME),
   ("timestamp", timestamp), ("sk-language", "en"), ("sign", signature)] ++
  (match st.game_role with
   | some r => [("sk-game-role", r)]
   | none => [])

/-- Headers of the attendance claim request (POST): as for the check plus
`Content-Type`, the role header again only when a game role was
resolved. -/
def claim_headers (st : AuthState) (timestamp signature : String) :
    List (String × String) :=
  [("cred", st.cred), ("platform", PLATFORM), ("vname", VNAME),
   ("timestamp", timestamp), ("sk-language", "en"), ("sign", signature),
   ("Content-Type", "application/json")] ++
  (match st.game_role with
   | some r => [("sk-game-role", r)]
   | none => [])

/-- A reward dict as the adapter builds it from a catalog entry, with the
`.get` defaults `"Unknown"`, `0`, `""`. -/
def mkReward (res : Resource) : Reward :=
  ⟨res.name.getD "Unknown", res.count.getD 0, res.icon.getD ""⟩

/-- One iteration of the `for record in calendar:` loop of the
already-signed branch: a done record whose truthy `awardId` resolves in
the catalog overwrites `last_reward`. -/
def lastStep (rmap : List (String × Resource)) (acc : Option Reward)
    (c : CalEntry) : Option Reward :=
  if c.done then
    match c.awardId with
    | some a =>
      if a ≠ "" then
        match lookupRes rmap a with
        | some res => some (mkReward res)
        | none => acc
      else acc
    | none => acc
  else acc

/-- The `last_reward` computed by the already-signed branch: the reward of
the last done-and-resolvable calendar entry, if any. -/
def lastDoneReward (cal : List CalEntry) (rmap : List (String × Resource)) :
    Option Reward :=
  cal.foldl (lastStep rmap) none

/-- The id carried by one `awardIds` element:
`award.get("id") if isinstance(award, dict) else award`. -/
def awardIdOf : Award → Option String
  | .idStr s => some s
  | .idObj id => id

/-- The `for award in award_ids:` loop of the claim-success branch:
collect, in order, the rewards of the award ids that are truthy and
resolve in the claim response's catalog. -/
def buildRewards (rmap : List (String × Resource)) : List Award → List Reward
  | [] => []
  | award :: rest =>
    match awardIdOf award with
    | some a =>
      if a ≠ "" then
        match lookupRes rmap a with
        | some res => mkReward res :: buildRewards rmap rest
        | none => buildRewards rmap rest
      else buildRewards rmap rest
    | none => buildRewards rmap rest

/-- The rewards list of the claim-success branch, guarded by
`if award_ids and claim_resource_map:` — both must be nonempty for the
loop to run at all. -/
def claimRewards (cl : ClaimResp) : List Reward :=
  if cl.awardIds ≠ [] ∧ cl.resourceInfoMap ≠ [] then
    buildRewards cl.resourceInfoMap cl.awardIds
  else []

/-- The `", ".join(...)` of the per-reward `"Name xCount"` fragments. -/
def joinRewards : List Reward → String
  | [] => ""
  | [r] => r.name ++ " x" ++ toString r.count
  | r :: rest => r.name ++ " x" ++ toString r.count ++ ", " ++ joinRewards rest

/-- The reward summary text: `"Name xCount, ..."` over the resolved
rewards, or `"Unknown"` when none resolved. -/
def rewardText (rewards : List Reward) : String :=
  if rewards ≠ [] then joinRewards rewards else "Unknown"

/-- `total_signed`, the pre-claim baseline: the count of calendar entries
marked done. -/
def baseline (c : CheckResp) : Int :=
  ((c.calendar.filter fun e => e.done).length : Int)

/-- `EndfieldAdapter.perform_checkin`.  The first component is the outcome
dict; the second records whether the claim endpoint was invoked
(`claim_attendance` called), which the Python control flow determines
exactly as modelled: only after a successful check with `hasToday`
false. -/
def perform_checkin (env : Env) (tok : String) : Outcome × Bool :=
  match authenticate env tok with
  | none => (⟨false, "Authentication failed", false, none, 0⟩, false)
  | some _ =>
    let check := check_attendance env.checkResp
    if check.code ≠ some 0 then
      (⟨false, check.message.getD "Failed to check attendance", false, none, 0⟩, false)
    else if check.hasToday then
      (⟨true, "Already signed in today", true,
        lastDoneReward check.calendar check.resourceInfoMap, baseline check⟩, false)
    else
      let claim := claim_attendance env.claimResp
      let msg := claim.message.getD ""
      if claim.code = some 0 then
        (⟨true, "Signed in successfully! Rewards: " ++ rewardText (claimRewards claim),
          false, (claimRewards claim).head?, baseline check + 1⟩, true)
      else if claim.code = some 1001 ∨ claim.code = some 10001 ∨ containsAlready msg = true then
        (⟨true, "Already signed in today", true, none, baseline check⟩, true)
      else if claim.code = some 10002 then
        (⟨false, "Account token expired. Please update your token.", false, none, 0⟩, true)
      else
        (⟨false, "API Error (code " ++ codeRepr claim.code ++ "): " ++ msg,
          false, none, baseline check⟩, true)

/-- `Game.sign` in `src/games/game.py`: pass the adapter outcome through
field by field; a raised exception becomes the failure outcome carrying
the exception text. -/
def gameSign (r : Except String Outcome) : Outcome :=
  match r with
  | .ok o => ⟨o.success, o.message, o.already_signed, o.reward, o.total_sign_day⟩
  | .error e => ⟨false, e, false, none, 0⟩

/-! Concrete fixtures used by the witness theorems. -/

/-- A short-form raw token (a pre-obtained cred value). -/
def tokW : String := "mycred"

/-- A long-form raw token (starts with the `eyJ` JWT prefix). -/
def tokLong : String := "eyJsb25n"

/-- A sample resource-catalog entry. -/
def resW : Resource := ⟨some "Orundum", some 100, some "ic"⟩

/-- A check response that reports today already claimed, with one done
calendar entry whose award resolves. -/
def checkToday : CheckResp :=
  ⟨some 0, some "OK", true, [⟨true, some "a1"⟩], [("a1", resW)]⟩

/-- A check response with today unclaimed and two done calendar
entries. -/
def checkFresh : CheckResp :=
  ⟨some 0, some "OK", false, [⟨true, some "a1"⟩, ⟨true, some "a1"⟩, ⟨false, none⟩],
   [("a1", resW)]⟩

/-- A claim response with the success sentinel and one resolvable
award. -/
def claimOk : ClaimResp := ⟨some 0, some "OK", [.idStr "a1"], [("a1", resW)]⟩

/-- A claim response with the first already-claimed sentinel. -/
def claimAlready : ClaimResp := ⟨some 1001, some "already claimed", [], []⟩

/-- A claim response with the success sentinel whose message nevertheless
contains `"already"`. -/
def claimZeroAlready : ClaimResp := ⟨some 0, some "Already claimed", [], []⟩

/-- A claim response with the token-expired sentinel. -/
def claimExpired : ClaimResp := ⟨some 10002, some "expired", [], []⟩

/-- A claim response with an unrecognized failure code. -/
def claimErr : ClaimResp := ⟨some 10003, some "boom", [], []⟩

/-- A fully successful environment whose check reports today already
claimed; the binding list is empty, so no game role resolves. -/
def envW : Env :=
  ⟨Except.ok ⟨some 0, some "oc"⟩, Except.ok ⟨some 0, some "credv"⟩,
   Except.ok ⟨some 0, some "sigtok"⟩, Except.ok ⟨some 0, []⟩,
   Except.ok checkToday, Except.ok claimOk⟩

/-- `envW` with an unclaimed check and a successful claim. -/
def envFresh : Env := { envW with checkResp := Except.ok checkFresh }

/-- `envFresh` with an already-claimed-sentinel claim response. -/
def envAlready : Env := { envFresh with claimResp := Except.ok claimAlready }

/-- `envFresh` with a code-0 claim response whose message contains
`"already"`. -/
def envCX : Env := { envFresh with claimResp := Except.ok claimZeroAlready }

/-- `envFresh` with a token-expired claim response. -/
def envExpired : Env := { envFresh with claimResp := Except.ok claimExpired }

/-- `envFresh` with an unrecognized-error claim response. -/
def envErr : Env := { envFresh with claimResp := Except.ok claimErr }

/-- `envW` with a failing token refresh, so authentication aborts. -/
def envAuthFail : Env := { envW with refreshResp := Except.ok ⟨some 1, none⟩ }

/-- `envFresh` with a transport failure on the attendance check. -/
def envCheckErr : Env := { envFresh with checkResp := Except.error "net down" }

/-! Helper lemmas. -/

/-- The already-signed reward loop leaves its accumulator unchanged over a
run of calendar entries none of which is done. -/
theorem foldl_lastStep_of_nodone (rmap : List (String × Resource))
    (l : List CalEntry) (acc : Option Reward) (h : ∀ d ∈ l, d.done = false) :
    l.foldl (lastStep rmap) acc = acc := by
  induction l generalizing acc with
  | nil => rfl
  | cons c cs ih =>
    have hc : c.done = false := h c (by simp)
    simp only [List.foldl_cons]
    rw [show lastStep rmap acc c = acc by simp [lastStep, hc]]
    exact ih acc fun d hd => h d (by simp [hd])

/-- One loop step on a done entry whose truthy award id resolves
overwrites the accumulator with that reward. -/
theorem lastStep_resolves (rmap : List (String × Resource)) (acc : Option Reward)
    (c : CalEntry) (a : String) (res : Resource) (hdone : c.done = true)
    (haid : c.awardId = some a) (hne : a ≠ "")
    (hlook : lookupRes rmap a = some res) :
    lastStep rmap acc c = some (mkReward res) := by
  simp [lastStep, hdone, haid, hne, hlook]

/-! Claim theorems. -/

/-- C1: when the check response has top-level code 0 and reports
`hasToday = true`, `perform_checkin` returns success with
`already_signed = true`, the message `"Already signed in today"`, the
total equal to the count of done calendar entries, and the reward of the
last done-and-resolvable calendar entry; the claim endpoint is never
called.  Moreover, whenever the most recent done calendar entry has a
truthy award id that resolves in the resource catalog, the reported
reward is exactly that entry's reward. -/
theorem c1_already_signed_today (env : Env) (tok : String) (st : AuthState)
    (hauth : authenticate env tok = some st)
    (hcode : (check_attendance env.checkResp).code = some 0)
    (htoday : (check_attendance env.checkResp).hasToday = true) :
    perform_checkin env tok =
      (⟨true, "Already signed in today", true,
        lastDoneReward (check_attendance env.checkResp).calendar
          (check_attendance env.checkResp).resourceInfoMap,
        baseline (check_attendance env.checkResp)⟩, false) ∧
    (∀ pre (c : CalEntry) post (a : String) (res : Resource),
      (check_attendance env.checkResp).calendar = pre ++ c :: post →
      c.done = true → (∀ d ∈ post, d.done = false) →
      c.awardId = some a → a ≠ "" →
      lookupRes (check_attendance env.checkResp).resourceInfoMap a = some res →
      lastDoneReward (check_attendance env.checkResp).calendar
        (check_attendance env.checkResp).resourceInfoMap = some (mkReward res)) := by
  constructor
  · simp [perform_checkin, hauth, hcode, htoday]
  · intro pre c post a res hcal hdone hpost haid hne hlook
    rw [hcal]
    unfold lastDoneReward
    rw [List.foldl_append, List.foldl_cons,
        lastStep_resolves _ _ c a res hdone haid hne hlook]
    exact foldl_lastStep_of_nodone _ post _ hpost

/-- C1 witness: a concrete already-signed run, with the most recent done
entry's reward reported and the claim endpoint not called. -/
theorem c1_witness :
    perform_checkin envW tokW =
      (⟨true, "Already signed in today", true, some ⟨"Orundum", 100, "ic"⟩, 1⟩, false) ∧
    lastDoneReward checkToday.calendar checkToday.resourceInfoMap = some (mkReward resW) := by
  have h := c1_already_signed_today envW tokW ⟨"mycred", "sigtok", none⟩ (by decide) rfl rfl
  refine ⟨h.1.trans (by decide), ?_⟩
  exact h.2 [] ⟨true, some "a1"⟩ [] "a1" resW rfl rfl (by simp) rfl (by decide) (by decide)

/-- C2 counterexample: a claim response whose code is the success
sentinel 0 but whose message contains `"already"` is handled by the
code-0 branch, which reports a fresh sign-in (`already_signed = false`)
with total one above the baseline — not the already-signed outcome the
claim requires for every response whose message contains
`"already"`. -/
theorem c2_counterexample :
    containsAlready ((claim_attendance envCX.claimResp).message.getD "") = true ∧
    (perform_checkin envCX tokW).1.already_signed = false ∧
    (perform_checkin envCX tokW).1.total_sign_day =
      baseline (check_attendance envCX.checkResp) + 1 := by decide

/-- C2 (amended): for a claim response whose code is 1001 or 10001, or
whose code is not the success sentinel 0 and whose message
case-insensitively contains `"already"`, `perform_checkin` returns
success with `already_signed = true`, no reward, and the pre-claim
baseline as total. -/
theorem c2_claim_already_benign (env : Env) (tok : String) (st : AuthState)
    (hauth : authenticate env tok = some st)
    (hcode : (check_attendance env.checkResp).code = some 0)
    (htoday : (check_attendance env.checkResp).hasToday = false)
    (hclaim : (claim_attendance env.claimResp).code = some 1001 ∨
              (claim_attendance env.claimResp).code = some 10001 ∨
              ((claim_attendance env.claimResp).code ≠ some 0 ∧
               containsAlready ((claim_attendance env.claimResp).message.getD "") = true)) :
    perform_checkin env tok =
      (⟨true, "Already signed in today", true, none,
        baseline (check_attendance env.checkResp)⟩, true) := by
  rcases hclaim with h | h | h
  · simp [perform_checkin, hauth, hcode, htoday, h]
  · simp [perform_checkin, hauth, hcode, htoday, h]
  · simp [perform_checkin, hauth, hcode, htoday, h.1, h.2]

/-- C2 witness: a concrete race where the claim returns the 1001
sentinel after an unclaimed check with two done days. -/
theorem c2_witness :
    perform_checkin envAlready tokW =
      (⟨true, "Already signed in today", true, none, 2⟩, true) := by
  have h := c2_claim_already_benign envAlready tokW ⟨"mycred", "sigtok", none⟩
    (by decide) rfl rfl (Or.inl rfl)
  exact h.trans (by decide)

/-- Verbatim characters escape to themselves. -/
theorem jsonEscapeChar_plain (c : Char) (h : plainAscii c = true) :
    jsonEscapeChar c = String.singleton c := by
  simp only [plainAscii, Bool.and_eq_true, Bool.not_eq_true', beq_eq_false_iff_ne,
    decide_eq_true_eq, ne_eq] at h
  obtain ⟨⟨⟨h1, h2⟩, h3⟩, h4⟩ := h
  unfold jsonEscapeChar
  rw [if_neg h3, if_neg h4,
      if_neg (fun he => absurd h1 (by rw [he]; decide)),
      if_neg (fun he => absurd h1 (by rw [he]; decide)),
      if_neg (fun he => absurd h1 (by rw [he]; decide)),
      if_neg (by omega), if_neg (by omega), if_neg (by omega), if_pos h2]

/-- A string of verbatim characters escapes to itself. -/
theorem escList_plain (l : List Char) (h : ∀ c ∈ l, plainAscii c = true) :
    escList l = String.mk l := by
  induction l with
  | nil => rfl
  | cons c cs ih =>
    simp only [escList]
    rw [jsonEscapeChar_plain c (h c (by simp)), ih fun d hd => h d (by simp [hd])]
    rfl

/-- A JSON string literal over verbatim characters is the quoted string
itself. -/
theorem jsonString_plain (s : String) (h : ∀ c ∈ s.data, plainAscii c = true) :
    jsonString s = "\"" ++ s ++ "\"" := by
  unfold jsonString
  rw [escList_plain s.data h]

/-- C3: `compute_sign` is the MD5 hex digest of the HMAC-SHA256 hex
digest, keyed by the signing token, of the signing string
`path ++ body ++ timestamp ++ H`, where `H` is the header object
`platform, timestamp, dId (device id, empty), vName (client version)`
serialized with no whitespace in that fixed key order; the definition is
a pure function of its arguments.  Stated for timestamps of verbatim
characters (the adapter always passes a decimal Unix timestamp). -/
theorem c3_compute_sign (hmacSha256Hex : String → String → String)
    (md5Hex : String → String) (sign_token path body timestamp : String)
    (hts : ∀ c ∈ timestamp.data, plainAscii c = true) :
    compute_sign hmacSha256Hex md5Hex sign_token path body timestamp =
      md5Hex (hmacSha256Hex sign_token
        (path ++ body ++ timestamp ++
          ("\x7b\"platform\":\"3\",\"timestamp\":\"" ++ timestamp ++
           "\",\"dId\":\"\",\"vName\":\"1.0.0\"\x7d"))) := by
  unfold compute_sign
  simp only [jsonObj, jsonFields, PLATFORM, VNAME]
  rw [jsonString_plain timestamp hts]
  apply congrArg md5Hex
  apply congrArg (hmacSha256Hex sign_token)
  apply String.ext
  simp only [String.data_append, List.append_assoc]
  rfl

/-- C3 witness: the signing pipeline evaluated at a concrete path, empty
body, a concrete decimal timestamp and stand-in hash primitives. -/
theorem c3_witness :
    compute_sign (fun k m => k ++ "#" ++ m) (fun s => "md5:" ++ s) "tok"
      "/web/v1/game/endfield/attendance" "" "1700000000" =
    "md5:" ++ ("tok" ++ "#" ++ ("/web/v1/game/endfield/attendance" ++ "" ++ "1700000000" ++
      ("\x7b\"platform\":\"3\",\"timestamp\":\"" ++ "1700000000" ++
       "\",\"dId\":\"\",\"vName\":\"1.0.0\"\x7d"))) :=
  c3_compute_sign (fun k m => k ++ "#" ++ m) (fun s => "md5:" ++ s) "tok"
    "/web/v1/game/endfield/attendance" "" "1700000000" (by decide)

/-- C4: when authentication and the check succeed, today is unclaimed and
the claim returns the success sentinel 0, `perform_checkin` reports a
fresh sign-in: total is the baseline plus one, the reward is the first
reward resolved through the claim response's own catalog, and the message
carries the reward summary; when no rewards resolve the reward is `none`
and the summary reads `"Unknown"`. -/
theorem c4_claim_success (env : Env) (tok : String) (st : AuthState)
    (hauth : authenticate env tok = some st)
    (hcode : (check_attendance env.checkResp).code = some 0)
    (htoday : (check_attendance env.checkResp).hasToday = false)
    (hclaim : (claim_attendance env.claimResp).code = some 0) :
    perform_checkin env tok =
      (⟨true, "Signed in successfully! Rewards: " ++
          rewardText (claimRewards (claim_attendance env.claimResp)),
        false, (claimRewards (claim_attendance env.claimResp)).head?,
        baseline (check_attendance env.checkResp) + 1⟩, true) ∧
    (claimRewards (claim_attendance env.claimResp) = [] →
      (claimRewards (claim_attendance env.claimResp)).head? = none ∧
      rewardText (claimRewards (claim_attendance env.claimResp)) = "Unknown") := by
  constructor
  · simp [perform_checkin, hauth, hcode, htoday, hclaim]
  · intro h
    rw [h]
    exact ⟨rfl, rfl⟩

/-- C4 witness: a concrete fresh claim over a baseline of two done days
with one resolvable award. -/
theorem c4_witness :
    perform_checkin envFresh tokW =
      (⟨true, "Signed in successfully! Rewards: Orundum x100", false,
        some ⟨"Orundum", 100, "ic"⟩, 3⟩, true) := by
  have h := (c4_claim_success envFresh tokW ⟨"mycred", "sigtok", none⟩
    (by decide) rfl rfl rfl).1
  exact h.trans (by decide)

/-- C5: in the claim hard-failure branch (code neither 0 nor an
already-claimed case), the token-expired sentinel 10002 yields a failure
with the credential-renewal message and total 0, and any other code
yields a failure carrying the raw code and upstream message with the
baseline preserved. -/
theorem c5_claim_hard_failure (env : Env) (tok : String) (st : AuthState)
    (hauth : authenticate env tok = some st)
    (hcode : (check_attendance env.checkResp).code = some 0)
    (htoday : (check_attendance env.checkResp).hasToday = false)
    (h0 : (claim_attendance env.claimResp).code ≠ some 0)
    (h1 : (claim_attendance env.claimResp).code ≠ some 1001)
    (h2 : (claim_attendance env.claimResp).code ≠ some 10001)
    (h3 : containsAlready ((claim_attendance env.claimResp).message.getD "") = false) :
    perform_checkin env tok =
      ((if (claim_attendance env.claimResp).code = some 10002 then
          ⟨false, "Account token expired. Please update your token.", false, none, 0⟩
        else
          ⟨false, "API Error (code " ++ codeRepr (claim_attendance env.claimResp).code ++
            "): " ++ (claim_attendance env.claimResp).message.getD "", false, none,
            baseline (check_attendance env.checkResp)⟩), true) := by
  simp only [perform_checkin, hauth, hcode, htoday, h0, h1, h2, h3]
  simp
  split <;> rfl

/-- C5 witness: the expired sentinel resets the total to 0 and any other
unknown code preserves the baseline of two done days. -/
theorem c5_witness :
    perform_checkin envExpired tokW =
      (⟨false, "Account token expired. Please update your token.", false, none, 0⟩, true) ∧
    perform_checkin envErr tokW =
      (⟨false, "API Error (code 10003): boom", false, none, 2⟩, true) := by
  constructor
  · have h := c5_claim_hard_failure envExpired tokW ⟨"mycred", "sigtok", none⟩
      (by decide) rfl rfl (by decide) (by decide) (by decide) (by decide)
    exact h.trans (by decide)
  · have h := c5_claim_hard_failure envErr tokW ⟨"mycred", "sigtok", none⟩
      (by decide) rfl rfl (by decide) (by decide) (by decide) (by decide)
    exact h.trans (by decide)

/-- C6: when any hop of the credential-exchange chain fails (the
credential stage or the sign-token refresh yields nothing),
`authenticate` fails and `perform_checkin` returns exactly the
authentication-failure outcome, identifying no particular hop. -/
theorem c6_auth_failure (env : Env) (tok : String)
    (h : credStage env tok = none ∨ getSignToken env.refreshResp = none) :
    authenticate env tok = none ∧
    perform_checkin env tok =
      (⟨false, "Authentication failed", false, none, 0⟩, false) := by
  have ha : authenticate env tok = none := by
    rcases h with h | h
    · simp [authenticate, h]
    · cases hc : credStage env tok <;> simp [authenticate, hc, h]
  exact ⟨ha, by simp [perform_checkin, ha]⟩

/-- C6 witness: a failing token refresh aborts the chain with the exact
authentication-failure outcome. -/
theorem c6_witness :
    authenticate envAuthFail tokW = none ∧
    perform_checkin envAuthFail tokW =
      (⟨false, "Authentication failed", false, none, 0⟩, false) :=
  c6_auth_failure envAuthFail tokW (Or.inr (by decide))

/-- C7 counterexample: the empty string is classified short-form by the
length/prefix threshold, yet the empty cred it installs is falsy in
Python, so `authenticate`'s `if not self.cred:` guard still issues the
OAuth grant call — refuting the claim that a short-form token never
triggers OAuth. -/
theorem c7_counterexample : isShortToken "" = true ∧ oauth_invoked "" = true := by
  decide

/-- C7 (amended): every nonempty short-form raw token bypasses the OAuth
grant call and is used verbatim as the session credential; every
long-form token always triggers the OAuth grant call. -/
theorem c7_short_token_bypasses_oauth (tok : String) (env : Env) (hne : tok ≠ "") :
    (isShortToken tok = true →
      oauth_invoked tok = false ∧ credStage env tok = some tok ∧
      ∀ st, authenticate env tok = some st → st.cred = tok) ∧
    (isShortToken tok = false → oauth_invoked tok = true) := by
  constructor
  · intro hshort
    have h1 : initCred tok = some tok := by simp [initCred, hshort]
    have h2 : strTruthy (some tok) = true := by simp [strTruthy, hne]
    have h3 : credStage env tok = some tok := by
      unfold credStage
      rw [h1]
      simp [h2]
    refine ⟨by simp [oauth_invoked, h1, h2], h3, ?_⟩
    intro st hst
    unfold authenticate at hst
    rw [h3] at hst
    cases hgt : getSignToken env.refreshResp with
    | none => rw [hgt] at hst; simp at hst
    | some t =>
      rw [hgt] at hst
      simp only [Option.some.injEq] at hst
      rw [← hst]
  · intro hlong
    have h1 : initCred tok = none := by simp [initCred, hlong]
    simp [oauth_invoked, h1, strTruthy]

/-- C7 witness: a concrete nonempty cred-style token skips OAuth and is
used verbatim; a concrete `eyJ`-prefixed token triggers OAuth. -/
theorem c7_witness :
    (oauth_invoked tokW = false ∧ credStage envW tokW = some tokW ∧
      ∀ st, authenticate envW tokW = some st → st.cred = tokW) ∧
    oauth_invoked tokLong = true :=
  ⟨(c7_short_token_bypasses_oauth tokW envW (by decide)).1 (by decide),
   (c7_short_token_bypasses_oauth tokLong envW (by decide)).2 (by decide)⟩

/-- C8: when the token refresh succeeds but the player-binding lookup
resolves nothing, `authenticate` still succeeds with `game_role` unset,
and both the check and the claim requests carry all their headers except
the role header, which is omitted. -/
theorem c8_missing_binding_nonfatal (env : Env) (tok c t : String)
    (hcred : credStage env tok = some c)
    (ht : getSignToken env.refreshResp = some t)
    (hbind : getPlayerBinding env.bindingResp = none) :
    authenticate env tok = some ⟨c, t, none⟩ ∧
    (∀ ts sig,
      check_headers ⟨c, t, none⟩ ts sig =
        [("cred", c), ("platform", PLATFORM), ("vname", VNAME), ("timestamp", ts),
         ("sk-language", "en"), ("sign", sig)] ∧
      claim_headers ⟨c, t, none⟩ ts sig =
        [("cred", c), ("platform", PLATFORM), ("vname", VNAME), ("timestamp", ts),
         ("sk-language", "en"), ("sign", sig), ("Content-Type", "application/json")] ∧
      "sk-game-role" ∉ (check_headers ⟨c, t, none⟩ ts sig).map Prod.fst ∧
      "sk-game-role" ∉ (claim_headers ⟨c, t, none⟩ ts sig).map Prod.fst) := by
  refine ⟨by simp [authenticate, hcred, ht, hbind], ?_⟩
  intro ts sig
  refine ⟨rfl, rfl, ?_, ?_⟩ <;> simp [check_headers, claim_headers]

/-- C8 witness: the concrete environment with an empty binding list still
authenticates, with role-less headers. -/
theorem c8_witness :
    authenticate envW tokW = some ⟨"mycred", "sigtok", none⟩ ∧
    check_headers ⟨"mycred", "sigtok", none⟩ "111" "sg" =
      [("cred", "mycred"), ("platform", "3"), ("vname", "1.0.0"), ("timestamp", "111"),
       ("sk-language", "en"), ("sign", "sg")] := by
  have h := c8_missing_binding_nonfatal envW tokW "mycred" "sigtok"
    (by decide) (by decide) (by decide)
  exact ⟨h.1, ((h.2 "111" "sg").1).trans (by decide)⟩

/-- C9: a transport or decoding error in the check or claim call yields
the synthetic payload with the reserved sentinel code `-1`, which is
never the success code 0; and `perform_checkin` is a total function,
returning a well-formed outcome record for every environment and
token. -/
theorem c9_transport_errors :
    (∀ e, check_attendance (Except.error e) = ⟨some (-1), some e, false, [], []⟩ ∧
          (check_attendance (Except.error e)).code ≠ some 0) ∧
    (∀ e, claim_attendance (Except.error e) = ⟨some (-1), some e, [], []⟩ ∧
          (claim_attendance (Except.error e)).code ≠ some 0) ∧
    (∀ env tok, ∃ o : Outcome, ∃ called : Bool, perform_checkin env tok = (o, called)) := by
  refine ⟨?_, ?_, ?_⟩
  · intro e
    refine ⟨rfl, fun h => ?_⟩
    rw [show (check_attendance (Except.error e)).code = some (-1) from rfl] at h
    exact absurd (Option.some.inj h) (by decide)
  · intro e
    refine ⟨rfl, fun h => ?_⟩
    rw [show (claim_attendance (Except.error e)).code = some (-1) from rfl] at h
    exact absurd (Option.some.inj h) (by decide)
  · intro env tok
    exact ⟨_, _, rfl⟩

/-- C9 witness: the synthetic payload at concrete error texts, and a
well-formed outcome for the concrete transport-failure environment. -/
theorem c9_witness :
    check_attendance (Except.error "net down") = ⟨some (-1), some "net down", false, [], []⟩ ∧
    (claim_attendance (Except.error "boom")).code ≠ some 0 ∧
    (∃ o : Outcome, ∃ called : Bool, perform_checkin envCheckErr tokW = (o, called)) :=
  ⟨(c9_transport_errors.1 "net down").1, (c9_transport_errors.2.1 "boom").2,
   c9_transport_errors.2.2 envCheckErr tokW⟩

/-- C10: in every outcome of `perform_checkin`, and of `Game.sign` both
when it passes the adapter outcome through and when it catches an
exception, `already_signed = true` implies `success = true`. -/
theorem c10_already_implies_success (env : Env) (tok : String) :
    ((perform_checkin env tok).1.already_signed = true →
      (perform_checkin env tok).1.success = true) ∧
    ((gameSign (Except.ok (perform_checkin env tok).1)).already_signed = true →
      (gameSign (Except.ok (perform_checkin env tok).1)).success = true) ∧
    (∀ e, (gameSign (Except.error e)).already_signed = false) := by
  have key : (perform_checkin env tok).1.already_signed = true →
      (perform_checkin env tok).1.success = true := by
    unfold perform_checkin
    cases authenticate env tok with
    | none => simp
    | some st =>
      by_cases h1 : (check_attendance env.checkResp).code ≠ some 0
      · simp [h1]
      · by_cases h2 : (check_attendance env.checkResp).hasToday
        · simp [h1, h2]
        · by_cases h3 : (claim_attendance env.claimResp).code = some 0
          · simp [h1, h2, h3]
          · by_cases h4a : (claim_attendance env.claimResp).code = some 1001
            · simp [h1, h2, h3, h4a]
            · by_cases h4b : (claim_attendance env.claimResp).code = some 10001
              · simp [h1, h2, h3, h4a, h4b]
              · by_cases h4c :
                  containsAlready ((claim_attendance env.claimResp).message.getD "") = true
                · simp [h1, h2, h3, h4a, h4b, h4c]
                · by_cases h5 : (claim_attendance env.claimResp).code = some 10002
                  · simp [h1, h2, h3, h4a, h4b, h4c, h5]
                  · simp [h1, h2, h3, h4a, h4b, h4c, h5]
  exact ⟨key, fun h => key h, fun e => rfl⟩

/-- C10 witness: the concrete already-signed run is a success, through
the adapter and through `Game.sign`; an exception outcome is never
already-signed. -/
theorem c10_witness :
    (perform_checkin envW tokW).1.success = true ∧
    (gameSign (Except.ok (perform_checkin envW tokW).1)).success = true ∧
    (gameSign (Except.error "x")).already_signed = false := by
  have h := c10_already_implies_success envW tokW
  exact ⟨h.1 (by decide), h.2.1 (by decide), h.2.2 "x"⟩

end Endfield
